import Mathlib

/-!
Verification development for the configuration-store-postgresql repository.

The repository implements a path-addressed key/value configuration store
backed by a PostgreSQL table (src/src/index.ts, class
PostgreSqlConfigurationStore, with the table schema in sql/init_config.sql).
This file gives a shallow embedding of that code:

- JSON documents are modelled by the inductive type Json (as mutually
  inductive lists so that decidable equality is kernel-computable).  The
  textual JSON marshalling performed by the code (JSON.stringify on the way
  in, driver-side parsing on the way out, with the CAST to the json column
  type) is a round trip on parsed documents and is modelled as the identity
  on Json.  A JavaScript undefined value, which JSON.stringify turns into an
  absent text and the driver binds as SQL NULL, is modelled as none in
  Option Json, matching the nullable data column.
- The configuration table is the Store structure: a list of rows, each with
  the generated id, the config_path key and the nullable data column,
  together with the counter used to hand out fresh generated ids.  The
  uniqueness constraint config_un on config_path makes the database apply
  the ON CONFLICT update to the single conflicting row, so setData is
  embedded as: if some row carries the path, overwrite the data of the rows
  carrying it (at most one in any state the constraint admits), otherwise
  append a fresh row.
- getData mirrors the SELECT built at src/src/index.ts lines 147-167: the
  WHERE config_path filter is only added when the path is a non-empty
  string, the query is capped by LIMIT 1 (modelled as taking the first
  matching row of the list), and on a miss the default value is written
  through setData and returned.
- updateData (lines 178-180) simply delegates to setData.
- The connection and error behaviour (connectionWrapper, createDatabase,
  createTables, init, lines 75-105 and 258-298) is embedded separately over
  a state counting open connections, with each wrapped query given by its
  outcome (success or a raised error) as an explicit argument; a raised
  error short-circuits the enclosing async function exactly as a rejected
  awaited promise does.
- The tableName handling (field initialised to the literal config at line
  65, the PostgreSqlConfiguration option at line 28, and init at lines
  75-105, which stores the configuration object but never assigns the
  tableName field) is embedded over the instance fields together with the
  SQL text that getData builds from them.
-/

namespace PgConfigStore

mutual
/-- JSON documents, as stored in the json-typed data column and produced by
JSON.stringify in setData.  Arrays and objects hold their elements through
the mutually inductive list types so that equality stays kernel-decidable. -/
inductive Json where
  | null : Json
  | bool (b : Bool) : Json
  | num (n : Int) : Json
  | str (s : String) : Json
  | arr (items : JsonList) : Json
  | obj (fields : JsonFields) : Json
deriving DecidableEq

inductive JsonList where
  | nil : JsonList
  | cons (hd : Json) (tl : JsonList) : JsonList
deriving DecidableEq

inductive JsonFields where
  | nil : JsonFields
  | cons (key : String) (val : Json) (tl : JsonFields) : JsonFields
deriving DecidableEq
end

/-- One row of the configuration table, following the
PostgresSqlConfigurationEntry interface and the schema in init_config.sql:
a generated id (primary key), the config_path key (unique through the
config_un constraint) and the nullable json data column. -/
structure Entry where
  id : Nat
  config_path : String
  data : Option Json
deriving DecidableEq

/-- The configuration table: its rows, in insertion order (the unordered
SELECT with LIMIT 1 is modelled as taking the first row), plus the counter
from which the uuid default of the id column hands out fresh ids. -/
structure Store where
  rows : List Entry
  nextId : Nat
deriving DecidableEq

/-- setData (src/src/index.ts lines 116-136): INSERT INTO the table the
pair of config_path and the serialized value, ON CONFLICT ON CONSTRAINT
config_un DO UPDATE SET data to the new value, then return the input value.
A conflict with the uniqueness constraint on config_path means some row
already carries the path, and the DO UPDATE overwrites the data of that
conflicting row; otherwise a fresh row is inserted with a generated id. -/
def setData (s : Store) (settingsPath : String) (value : Option Json) :
    Store × Option Json :=
  if s.rows.any (fun r => r.config_path == settingsPath) then
    (⟨s.rows.map (fun r =>
        if r.config_path == settingsPath then { r with data := value } else r),
      s.nextId⟩, value)
  else
    (⟨s.rows ++ [⟨s.nextId, settingsPath, value⟩], s.nextId + 1⟩, value)

/-- getData (src/src/index.ts lines 147-167): SELECT * FROM the table,
adding WHERE config_path = $1 only when settingsPath is truthy (a non-empty
string), capped by LIMIT 1.  When a row comes back its data column is
returned; otherwise the default value is written through setData and the
value returned by that call is returned. -/
def getData (s : Store) (settingsPath : String) (defaultValue : Option Json) :
    Store × Option Json :=
  match (if settingsPath == "" then s.rows.head?
      else s.rows.find? (fun r => r.config_path == settingsPath)) with
  | some r => (s, r.data)
  | none => setData s settingsPath defaultValue

/-- updateData (src/src/index.ts lines 178-180): the body is a single
delegation, return this.setData(settingsPath, value). -/
def updateData (s : Store) (settingsPath : String) (value : Option Json) :
    Store × Option Json :=
  setData s settingsPath value

/-- Store states reachable through the exposed operations, starting from the
freshly created empty table. -/
inductive Reachable : Store → Prop where
  | empty : Reachable ⟨[], 0⟩
  | set (s : Store) (p : String) (v : Option Json) :
      Reachable s → Reachable (setData s p v).1
  | update (s : Store) (p : String) (v : Option Json) :
      Reachable s → Reachable (updateData s p v).1
  | get (s : Store) (p : String) (d : Option Json) :
      Reachable s → Reachable (getData s p d).1

/-- The invariant enforced by the config_un uniqueness constraint: no two
rows of the table carry the same config_path. -/
def pathsUnique (s : Store) : Prop :=
  s.rows.Pairwise (fun a b => a.config_path ≠ b.config_path)

/-- The recognized initialization options of the PostgreSqlConfiguration
interface (src/src/index.ts lines 13-29 plus the inherited pool options the
code reads). -/
structure PostgreSqlConfiguration where
  host : Option String
  port : Option Nat
  database : String
  user : Option String
  password : Option String
  default_database : Option String
  tableName : Option String
deriving DecidableEq

/-- The instance fields of PostgreSqlConfigurationStore that the SQL text
depends on: the private tableName field and the stored configuration. -/
structure StoreFields where
  tableName : String
  config : Option PostgreSqlConfiguration
deriving DecidableEq

/-- A freshly constructed store object: the tableName field initializer at
src/src/index.ts line 65 sets it to the literal config, and no
configuration has been stored yet. -/
def mkStoreFields : StoreFields :=
  ⟨"config", none⟩

/-- The field updates performed by init (src/src/index.ts lines 75-105):
with no configuration it throws, otherwise it stores the configuration
object in the config field.  No statement of init assigns the tableName
field, so it keeps whatever value it had. -/
def init (config : Option PostgreSqlConfiguration) (st : StoreFields) :
    Except String StoreFields :=
  match config with
  | none => Except.error "PostgreSQL configuration must be present"
  | some cfg => Except.ok { st with config := some cfg }

/-- The SQL text built by getData (src/src/index.ts lines 149-156): the
table name is interpolated from the tableName field, the WHERE clause is
added only for a truthy path, then LIMIT 1 and the closing semicolon. -/
def getDataSql (st : StoreFields) (settingsPath : String) : String :=
  "SELECT * FROM " ++ st.tableName ++
    (if settingsPath == "" then "" else " WHERE config_path = $1") ++
    " LIMIT 1" ++ ";"

/-- Connection-resource state: how many acquired client handles (pooled or
plain) have not been given back yet. -/
structure ConnState where
  openConns : Nat
deriving DecidableEq

/-- connect (src/src/index.ts lines 191-203): acquires a client handle,
either from the pool or as a fresh client. -/
def connect (s : ConnState) : ConnState :=
  ⟨s.openConns + 1⟩

/-- disconnect (src/src/index.ts lines 213-216): gives the handle back,
through release for a pool client or end for a plain client. -/
def disconnect (s : ConnState) : ConnState :=
  ⟨s.openConns - 1⟩

/-- connectionWrapper (src/src/index.ts lines 258-266): await connect,
await the wrapped function, await disconnect, return the value.  There is
no try/finally, so when the wrapped function rejects, the rejection
propagates out of the enclosing async function at the await and the
disconnect statement is never reached. -/
def connectionWrapper {α : Type} (func : ConnState → ConnState × Except String α)
    (s : ConnState) : ConnState × Except String α :=
  let s1 := connect s
  match func s1 with
  | (s2, Except.error e) => (s2, Except.error e)
  | (s2, Except.ok r) => (disconnect s2, Except.ok r)

/-- setData seen through its connection and error behaviour: one wrapped
INSERT query, whose outcome is the query argument, followed by returning
the input value. -/
def setDataConn (query : Except String Unit) (value : Option Json)
    (s : ConnState) : ConnState × Except String (Option Json) :=
  connectionWrapper (fun s1 =>
    (s1, match query with
      | Except.error e => Except.error e
      | Except.ok _ => Except.ok value)) s

/-- getData seen through its connection and error behaviour: one wrapped
SELECT whose outcome is the query argument (an error, a found row with its
data column, or no row), and on a miss a nested call to setData, which
acquires its own second connection inside the still-open outer one. -/
def getDataConn (query : Except String (Option (Option Json)))
    (setQuery : Except String Unit) (defaultValue : Option Json)
    (s : ConnState) : ConnState × Except String (Option Json) :=
  connectionWrapper (fun s1 =>
    match query with
    | Except.error e => (s1, Except.error e)
    | Except.ok (some d) => (s1, Except.ok d)
    | Except.ok none => setDataConn setQuery defaultValue s1) s

/-- createDatabase (src/src/index.ts lines 274-284): one wrapped CREATE
DATABASE query inside try/catch; a failure is logged as a warning and
swallowed, so the wrapped function itself always resolves. -/
def createDatabase (query : Except String Unit) (s : ConnState) :
    ConnState × Except String Unit :=
  connectionWrapper (fun s1 =>
    (s1, match query with
      | Except.error _ => Except.ok ()
      | Except.ok _ => Except.ok ())) s

/-- createTables (src/src/index.ts lines 293-298): one wrapped query running
the init_config.sql schema statement, with no local error handling. -/
def createTables (query : Except String Unit) (s : ConnState) :
    ConnState × Except String Unit :=
  connectionWrapper (fun s1 => (s1, query)) s

/-- The bootstrap sequence of init (src/src/index.ts lines 90-103): a
wrapped catalog query for the target database, whose row count decides
whether createDatabase is called (from inside the wrapped function), and
then the createTables step.  Each query argument is the outcome of the
corresponding SQL statement. -/
def initBootstrap (checkDbQuery : Except String Nat)
    (createDbQuery : Except String Unit) (createTablesQuery : Except String Unit)
    (s : ConnState) : ConnState × Except String Unit :=
  let step1 := connectionWrapper (fun s1 =>
    match checkDbQuery with
    | Except.error e => (s1, Except.error e)
    | Except.ok rowCount =>
      if rowCount == 0 then createDatabase createDbQuery s1
      else (s1, Except.ok ())) s
  match step1 with
  | (s2, Except.error e) => (s2, Except.error e)
  | (s2, Except.ok _) => createTables createTablesQuery s2

/-- The table state used to exhibit the update behaviour: the object with
keys a and b stored at the path apiKeys, as in the README example. -/
def mergeDemoStart : Store :=
  (setData ⟨[], 0⟩ "apiKeys"
    (some (Json.obj (JsonFields.cons "a" (Json.num 1)
      (JsonFields.cons "b" (Json.num 2) JsonFields.nil))))).1

/-- The table state after update at apiKeys with the object carrying keys b
and c. -/
def mergeDemoAfter : Store :=
  (updateData mergeDemoStart "apiKeys"
    (some (Json.obj (JsonFields.cons "b" (Json.num 3)
      (JsonFields.cons "c" (Json.num 4) JsonFields.nil))))).1

lemma setData_snd (s : Store) (p : String) (v : Option Json) :
    (setData s p v).2 = v := by
  unfold setData
  split <;> rfl

lemma setData_rows_of_any_true (s : Store) (p : String) (v : Option Json)
    (h : s.rows.any (fun r => r.config_path == p) = true) :
    (setData s p v).1 = ⟨s.rows.map (fun r =>
        if r.config_path == p then { r with data := v } else r), s.nextId⟩ := by
  simp [setData, h]

lemma setData_rows_of_any_false (s : Store) (p : String) (v : Option Json)
    (h : s.rows.any (fun r => r.config_path == p) = false) :
    (setData s p v).1 = ⟨s.rows ++ [⟨s.nextId, p, v⟩], s.nextId + 1⟩ := by
  simp [setData, h]

lemma setEntry_config_path (r : Entry) (p : String) (v : Option Json) :
    (if r.config_path == p then { r with data := v } else r).config_path =
      r.config_path := by
  split <;> rfl

lemma map_id_path_setData (rows : List Entry) (p : String) (v : Option Json) :
    (rows.map (fun r =>
        if r.config_path == p then { r with data := v } else r)).map
      (fun r => (r.id, r.config_path)) =
    rows.map (fun r => (r.id, r.config_path)) := by
  induction rows with
  | nil => rfl
  | cons a t ih =>
    rw [List.map_cons, List.map_cons, List.map_cons, ih]
    by_cases hap : a.config_path = p
    · have hc : (a.config_path == p) = true := by simp [hap]
      rw [if_pos hc]
    · have hcn : ¬((a.config_path == p) = true) := by
        simp [beq_eq_false_iff_ne.mpr hap]
      rw [if_neg hcn]

lemma find?_set_map (rows : List Entry) (p : String) (v : Option Json) :
    (rows.map (fun r =>
        if r.config_path == p then { r with data := v } else r)).find?
      (fun r => r.config_path == p) =
    (rows.find? (fun r => r.config_path == p)).map
      (fun r => { r with data := v }) := by
  induction rows with
  | nil => rfl
  | cons a t ih =>
    rw [List.map_cons]
    by_cases hap : a.config_path = p
    · have hc : (a.config_path == p) = true := by simp [hap]
      rw [if_pos hc]
      simp only [List.find?_cons, hc]
      rfl
    · have hc : (a.config_path == p) = false := beq_eq_false_iff_ne.mpr hap
      have hcn : ¬((a.config_path == p) = true) := by simp [hc]
      rw [if_neg hcn]
      simp only [List.find?_cons, hc]
      exact ih

lemma any_false_of_find?_none (rows : List Entry) (p : String)
    (h : rows.find? (fun r => r.config_path == p) = none) :
    rows.any (fun r => r.config_path == p) = false :=
  List.any_eq_false.mpr (fun x hx => List.find?_eq_none.mp h x hx)

lemma getData_found (s : Store) (p : String) (d : Option Json) (r : Entry)
    (hpb : (p == "") = false)
    (hf : s.rows.find? (fun r => r.config_path == p) = some r) :
    getData s p d = (s, r.data) := by
  unfold getData
  rw [if_neg (by simp [hpb] : ¬((p == "") = true)), hf]

lemma getData_missing (s : Store) (p : String) (d : Option Json)
    (hpb : (p == "") = false)
    (hf : s.rows.find? (fun r => r.config_path == p) = none) :
    getData s p d = setData s p d := by
  unfold getData
  rw [if_neg (by simp [hpb] : ¬((p == "") = true)), hf]

lemma getData_after_setData (s : Store) (p : String) (v : Option Json)
    (hp : p ≠ "") :
    (getData (setData s p v).1 p none).2 = v := by
  have hpb : (p == "") = false := beq_eq_false_iff_ne.mpr hp
  by_cases hany : s.rows.any (fun r => r.config_path == p) = true
  · have hrows : (setData s p v).1.rows = s.rows.map (fun r =>
        if r.config_path == p then { r with data := v } else r) := by
      rw [setData_rows_of_any_true s p v hany]
    cases hf : s.rows.find? (fun r => r.config_path == p) with
    | none =>
      obtain ⟨r0, hr0, hr0p⟩ := List.any_eq_true.mp hany
      exact absurd hr0p (List.find?_eq_none.mp hf r0 hr0)
    | some r1 =>
      have hf2 : (setData s p v).1.rows.find? (fun r => r.config_path == p) =
          some { r1 with data := v } := by
        rw [hrows, find?_set_map, hf]
        rfl
      rw [getData_found _ p none _ hpb hf2]
  · have hanyf : s.rows.any (fun r => r.config_path == p) = false := by
      simpa using hany
    have hrows : (setData s p v).1.rows = s.rows ++ [⟨s.nextId, p, v⟩] := by
      rw [setData_rows_of_any_false s p v hanyf]
    have hfind : s.rows.find? (fun r => r.config_path == p) = none :=
      List.find?_eq_none.mpr (fun x hx => List.any_eq_false.mp hanyf x hx)
    have hf2 : (setData s p v).1.rows.find? (fun r => r.config_path == p) =
        some ⟨s.nextId, p, v⟩ := by
      rw [hrows, List.find?_append, hfind]
      simp
    rw [getData_found _ p none _ hpb hf2]

lemma setData_rows_all (s : Store) (p : String) (v : Option Json) :
    ∀ r ∈ (setData s p v).1.rows, r.config_path = p → r.data = v := by
  intro r hr hrp
  by_cases hany : s.rows.any (fun r => r.config_path == p) = true
  · rw [setData_rows_of_any_true s p v hany] at hr
    obtain ⟨r0, hr0, rfl⟩ := List.mem_map.mp hr
    by_cases hap : r0.config_path = p
    · have hc : (r0.config_path == p) = true := by simp [hap]
      simp [hap, hc]
    · have hc : (r0.config_path == p) = false := beq_eq_false_iff_ne.mpr hap
      have hcond : ¬((r0.config_path == p) = true) := by simp [hc]
      rw [if_neg hcond] at hrp
      exact absurd hrp hap
  · have hanyf : s.rows.any (fun r => r.config_path == p) = false := by
      simpa using hany
    rw [setData_rows_of_any_false s p v hanyf] at hr
    rcases List.mem_append.mp hr with h1 | h2
    · exact absurd hrp (by simpa using List.any_eq_false.mp hanyf r h1)
    · rw [List.mem_singleton] at h2
      subst h2
      rfl

lemma pathsUnique_map (rows : List Entry) (p : String) (v : Option Json)
    (h : rows.Pairwise (fun a b => a.config_path ≠ b.config_path)) :
    (rows.map (fun r =>
        if r.config_path == p then { r with data := v } else r)).Pairwise
      (fun a b => a.config_path ≠ b.config_path) := by
  induction rows with
  | nil => simp
  | cons a t ih =>
    rw [List.pairwise_cons] at h
    obtain ⟨ha, ht⟩ := h
    rw [List.map_cons, List.pairwise_cons]
    refine ⟨?_, ih ht⟩
    intro b hb
    obtain ⟨b0, hb0, rfl⟩ := List.mem_map.mp hb
    rw [setEntry_config_path a p v, setEntry_config_path b0 p v]
    exact ha b0 hb0

lemma pathsUnique_setData (s : Store) (p : String) (v : Option Json)
    (h : pathsUnique s) : pathsUnique (setData s p v).1 := by
  by_cases hany : s.rows.any (fun r => r.config_path == p) = true
  · rw [pathsUnique, setData_rows_of_any_true s p v hany]
    exact pathsUnique_map s.rows p v h
  · have hanyf : s.rows.any (fun r => r.config_path == p) = false := by
      simpa using hany
    rw [pathsUnique, setData_rows_of_any_false s p v hanyf]
    rw [List.pairwise_append]
    refine ⟨h, List.pairwise_singleton _ _, ?_⟩
    intro x hx b hb
    rw [List.mem_singleton] at hb
    subst hb
    simpa using List.any_eq_false.mp hanyf x hx

lemma pathsUnique_getData (s : Store) (p : String) (d : Option Json)
    (h : pathsUnique s) : pathsUnique (getData s p d).1 := by
  unfold getData
  split
  · exact h
  · exact pathsUnique_setData s p d h

lemma reachable_pathsUnique (s : Store) (h : Reachable s) : pathsUnique s := by
  induction h with
  | empty => simp [pathsUnique]
  | set s p v _ ih => exact pathsUnique_setData s p v ih
  | update s p v _ ih => exact pathsUnique_setData s p v ih
  | get s p d _ ih => exact pathsUnique_getData s p d ih

lemma filter_length_le_one (rows : List Entry) (p : String)
    (h : rows.Pairwise (fun a b => a.config_path ≠ b.config_path)) :
    (rows.filter (fun r => r.config_path == p)).length ≤ 1 := by
  induction rows with
  | nil => simp
  | cons a t ih =>
    rw [List.pairwise_cons] at h
    obtain ⟨ha, ht⟩ := h
    by_cases hap : a.config_path = p
    · have hc : (a.config_path == p) = true := by simp [hap]
      have hnil : t.filter (fun r => r.config_path == p) = [] := by
        rw [List.filter_eq_nil_iff]
        intro r hr
        have hne := ha r hr
        rw [hap] at hne
        simp only [beq_iff_eq]
        exact fun h2 => hne h2.symm
      simp [List.filter_cons, hap, hc, hnil]
    · have hc : (a.config_path == p) = false := beq_eq_false_iff_ne.mpr hap
      simpa [List.filter_cons, hap, hc] using ih ht

/-- Claim C10: updateData and setData are extensionally equal — for every
store state, path and value, updateData performs exactly the same state
change and returns exactly the same result as setData. -/
theorem updateData_eq_setData (s : Store) (p : String) (v : Option Json) :
    updateData s p v = setData s p v :=
  rfl

/-- Claim C1 (code bug): with the object having a equal to 1 and b equal to
2 stored at apiKeys, update at apiKeys with the object having b equal to 3
and c equal to 4 followed by get at apiKeys returns the new object verbatim
and not the shallow merge keeping a, because updateData delegates to
setData, whose upsert overwrites the data column wholesale. -/
theorem update_does_not_merge :
    (getData mergeDemoAfter "apiKeys" none).2 =
      some (Json.obj (JsonFields.cons "b" (Json.num 3)
        (JsonFields.cons "c" (Json.num 4) JsonFields.nil))) ∧
    (getData mergeDemoAfter "apiKeys" none).2 ≠
      some (Json.obj (JsonFields.cons "a" (Json.num 1)
        (JsonFields.cons "b" (Json.num 3)
          (JsonFields.cons "c" (Json.num 4) JsonFields.nil)))) := by
  exact ⟨by decide, by decide⟩

/-- Claim C2 (code bug): when the wrapped query rejects, the operation
returns with the connection still open — starting from zero open
connections, a set whose INSERT fails ends with one unreleased connection,
while the successful run releases it.  connectionWrapper has no try/finally,
so the rejection propagates before the disconnect statement. -/
theorem connection_leaked_on_error :
    (setDataConn (Except.error "boom") (some Json.null) ⟨0⟩).1.openConns = 1 ∧
    (setDataConn (Except.error "boom") (some Json.null) ⟨0⟩).2 =
      Except.error "boom" ∧
    (setDataConn (Except.ok ()) (some Json.null) ⟨0⟩).1.openConns = 0 ∧
    (getDataConn (Except.error "boom") (Except.ok ()) none ⟨0⟩).1.openConns = 1 ∧
    (createTables (Except.error "boom") ⟨0⟩).1.openConns = 1 ∧
    (initBootstrap (Except.error "boom") (Except.ok ()) (Except.ok ())
      ⟨0⟩).1.openConns = 1 :=
  ⟨rfl, rfl, rfl, rfl, rfl, rfl⟩

/-- Claim C3 (code bug): initializing with a configuration whose tableName
option is the name custom leaves the tableName field at the default config,
because init never assigns it, so the SQL built for the read and write
operations still targets the table config. -/
theorem tableName_option_ignored :
    init (some ⟨none, none, "cfgdb", none, none, none, some "custom"⟩)
        mkStoreFields =
      Except.ok ⟨"config", some ⟨none, none, "cfgdb", none, none, none,
        some "custom"⟩⟩ ∧
    getDataSql ⟨"config", some ⟨none, none, "cfgdb", none, none, none,
        some "custom"⟩⟩ "k" =
      "SELECT * FROM config WHERE config_path = $1 LIMIT 1;" ∧
    ("config" : String) ≠ "custom" :=
  ⟨rfl, rfl, by decide⟩

/-- Claim C4 (amended to non-empty paths): for every store state, every
non-empty path and every JSON value v, set at the path followed by get at
the path returns a value structurally equal to v, and afterwards every row
at that path holds exactly v — whatever previously existed at the path is
fully discarded, no key of the old value survives. -/
theorem set_then_get_roundtrip (s : Store) (p : String) (v : Json)
    (hp : p ≠ "") :
    (getData (setData s p (some v)).1 p none).2 = some v ∧
    ∀ r ∈ (setData s p (some v)).1.rows, r.config_path = p →
      r.data = some v :=
  ⟨getData_after_setData s p (some v) hp, setData_rows_all s p (some v)⟩

/-- Claim C4, counterexample to the quantification over every path: with a
row already stored at the path a, set at the empty path followed by get at
the empty path returns the data of the pre-existing row and not the value
just set, because get with an empty path omits the config_path filter and
takes the first row. -/
theorem roundtrip_fails_on_empty_path :
    (getData (setData ⟨[⟨0, "a", some (Json.num 1)⟩], 1⟩ ""
        (some (Json.num 2))).1 "" none).2 = some (Json.num 1) ∧
    (getData (setData ⟨[⟨0, "a", some (Json.num 1)⟩], 1⟩ ""
        (some (Json.num 2))).1 "" none).2 ≠ some (Json.num 2) :=
  ⟨by decide, by decide⟩

/-- Witness for claim C4: the round trip evaluated at the path k and the
value 5 on the empty table. -/
theorem set_then_get_roundtrip_witness :
    ("k" : String) ≠ "" ∧
    (getData (setData ⟨[], 0⟩ "k" (some (Json.num 5))).1 "k" none).2 =
      some (Json.num 5) :=
  ⟨by decide,
    (set_then_get_roundtrip ⟨[], 0⟩ "k" (Json.num 5) (by decide)).1⟩

/-- Claim C5: for every non-empty path with no existing row and every
default value D, get at the path with default D performs exactly the
Replace-mode write of D (it is the setData call), returns D, and a
subsequent get at the path without a default also returns D — the default
was persisted. -/
theorem get_materializes_default (s : Store) (p : String) (D : Json)
    (hp : p ≠ "")
    (habs : s.rows.find? (fun r => r.config_path == p) = none) :
    getData s p (some D) = setData s p (some D) ∧
    (getData s p (some D)).2 = some D ∧
    (getData (getData s p (some D)).1 p none).2 = some D := by
  have hpb : (p == "") = false := beq_eq_false_iff_ne.mpr hp
  have h1 : getData s p (some D) = setData s p (some D) :=
    getData_missing s p (some D) hpb habs
  refine ⟨h1, ?_, ?_⟩
  · rw [h1, setData_snd]
  · rw [h1]
    exact getData_after_setData s p (some D) hp

/-- Witness for claim C5: the default 7 materialized at the path k in a
table holding one unrelated row. -/
theorem get_materializes_default_witness :
    (("k" : String) ≠ "" ∧
      (⟨[⟨0, "other", some Json.null⟩], 1⟩ : Store).rows.find?
        (fun r => r.config_path == "k") = none) ∧
    (getData (getData ⟨[⟨0, "other", some Json.null⟩], 1⟩ "k"
        (some (Json.num 7))).1 "k" none).2 = some (Json.num 7) :=
  ⟨⟨by decide, by decide⟩,
    (get_materializes_default ⟨[⟨0, "other", some Json.null⟩], 1⟩ "k"
      (Json.num 7) (by decide) (by decide)).2.2⟩

/-- Claim C6: for every non-empty path with no existing row, get without a
default stores the absence marker (the undefined default is serialized to
an absent parameter and lands as NULL in the nullable json column, modelled
as none) as the data of a fresh row at the path, and returns that absence
marker. -/
theorem get_without_default_stores_null (s : Store) (p : String)
    (hp : p ≠ "")
    (habs : s.rows.find? (fun r => r.config_path == p) = none) :
    (getData s p none).1.rows = s.rows ++ [⟨s.nextId, p, none⟩] ∧
    (getData s p none).2 = none := by
  have hpb : (p == "") = false := beq_eq_false_iff_ne.mpr hp
  have h1 : getData s p none = setData s p none :=
    getData_missing s p none hpb habs
  constructor
  · rw [h1, setData_rows_of_any_false s p none
      (any_false_of_find?_none s.rows p habs)]
  · rw [h1, setData_snd]

/-- Witness for claim C6: get without a default at the path k on the empty
table. -/
theorem get_without_default_stores_null_witness :
    (("k" : String) ≠ "" ∧
      (⟨[], 0⟩ : Store).rows.find? (fun r => r.config_path == "k") = none) ∧
    (getData (⟨[], 0⟩ : Store) "k" none).1.rows = [⟨0, "k", none⟩] ∧
    (getData (⟨[], 0⟩ : Store) "k" none).2 = none :=
  ⟨⟨by decide, rfl⟩,
    get_without_default_stores_null ⟨[], 0⟩ "k" (by decide) rfl⟩

/-- Claim C7: get with an empty path omits the config_path equality filter
entirely and, on a non-empty table, returns the data of one row of the
table (the single row the LIMIT 1 query yields) without writing anything,
rather than failing or returning nothing. -/
theorem get_empty_path_reads_first_row (s : Store) (d : Option Json)
    (h : s.rows ≠ []) :
    s.rows.head h ∈ s.rows ∧ getData s "" d = (s, (s.rows.head h).data) := by
  refine ⟨List.head_mem h, ?_⟩
  unfold getData
  rw [if_pos (by decide : (("" : String) == "") = true), List.head?_eq_head h]

/-- Witness for claim C7: get with the empty path on a table holding one
row at the path a. -/
theorem get_empty_path_reads_first_row_witness :
    (⟨[⟨0, "a", some (Json.num 7)⟩], 1⟩ : Store).rows ≠ [] ∧
    getData ⟨[⟨0, "a", some (Json.num 7)⟩], 1⟩ "" none =
      (⟨[⟨0, "a", some (Json.num 7)⟩], 1⟩, some (Json.num 7)) :=
  ⟨by decide,
    (get_empty_path_reads_first_row ⟨[⟨0, "a", some (Json.num 7)⟩], 1⟩ none
      (by decide)).2⟩

/-- Claim C8: in every reachable store state at most one row exists per
distinct path, and every set (updateData being the same function) either
mutates the data of the rows carrying an already-present path, keeping
every row identity and path unchanged, or appends one fresh row for a
previously absent path — never a second row for the same path. -/
theorem at_most_one_row_per_path (s : Store) (hs : Reachable s) :
    (∀ p, (s.rows.filter (fun r => r.config_path == p)).length ≤ 1) ∧
    (∀ p v, (s.rows.any (fun r => r.config_path == p) = true →
        (setData s p v).1.rows.map (fun r => (r.id, r.config_path)) =
          s.rows.map (fun r => (r.id, r.config_path))) ∧
      (s.rows.any (fun r => r.config_path == p) = false →
        (setData s p v).1.rows = s.rows ++ [⟨s.nextId, p, v⟩])) := by
  refine ⟨fun p => filter_length_le_one s.rows p (reachable_pathsUnique s hs),
    fun p v => ⟨?_, ?_⟩⟩
  · intro hany
    rw [setData_rows_of_any_true s p v hany]
    exact map_id_path_setData s.rows p v
  · intro hanyf
    rw [setData_rows_of_any_false s p v hanyf]

/-- Witness for claim C8: the invariant evaluated on the reachable state
obtained by one set at the path a from the empty table. -/
theorem at_most_one_row_per_path_witness :
    Reachable (setData ⟨[], 0⟩ "a" (some Json.null)).1 ∧
    ((setData ⟨[], 0⟩ "a" (some Json.null)).1.rows.filter
        (fun r => r.config_path == "a")).length ≤ 1 :=
  ⟨Reachable.set ⟨[], 0⟩ "a" (some Json.null) Reachable.empty,
    (at_most_one_row_per_path (setData ⟨[], 0⟩ "a" (some Json.null)).1
      (Reachable.set ⟨[], 0⟩ "a" (some Json.null) Reachable.empty)).1 "a"⟩

/-- Claim C9: a failing create-database statement is swallowed inside
createDatabase, initialization proceeds to the schema-creation step and
its outcome is exactly the outcome of that step, unaffected by the
failure; and it is the only locally absorbed error — a failing catalog
check, schema statement, insert or select propagates out of the
respective operation. -/
theorem createdb_failure_absorbed (e e2 : String) (ctq : Except String Unit)
    (v d : Option Json) (s : ConnState) :
    (createDatabase (Except.error e) s).2 = Except.ok () ∧
    initBootstrap (Except.ok 0) (Except.error e) ctq s =
      initBootstrap (Except.ok 0) (Except.ok ()) ctq s ∧
    (initBootstrap (Except.ok 0) (Except.error e) ctq s).2 = ctq ∧
    (initBootstrap (Except.error e2) (Except.ok ()) ctq s).2 =
      Except.error e2 ∧
    (initBootstrap (Except.ok 0) (Except.error e) (Except.error e2) s).2 =
      Except.error e2 ∧
    (createTables (Except.error e2) s).2 = Except.error e2 ∧
    (setDataConn (Except.error e2) v s).2 = Except.error e2 ∧
    (getDataConn (Except.error e2) (Except.ok ()) d s).2 = Except.error e2 := by
  refine ⟨rfl, rfl, ?_, rfl, rfl, rfl, rfl, rfl⟩
  cases ctq with
  | error e3 => rfl
  | ok u => rfl


end PgConfigStore
